import Mathlib

/-!
Shallow embedding of the errbot ServiceNow plugin (`servicenow.py`).

The plugin polls a ServiceNow REST API for new incidents (`new_issues`),
keeping a `LAST_RUN` watermark string in the bot's key-value store, answers
on-demand ticket lookups (`sn`), formats ticket records (`issue_details`)
and converts naive datetimes between timezones (`convert_tz`).

Datetimes are modelled as civil (naive) timestamps; instants are seconds
relative to the Unix epoch computed with the standard days-from-civil
algorithm.  The `US/Eastern` timezone is modelled with the post-2007 United
States daylight-saving rules (second Sunday of March 02:00 local to first
Sunday of November 02:00 local), resolving nonexistent and ambiguous local
times to standard time exactly as pytz's `localize` does with its default
`is_dst=False`.  All dates appearing in the claims are after 2007, where
this agrees with the tz database used by pytz.
-/

/-- A naive (timezone-less) datetime, as produced by `datetime.strptime`. -/
structure NaiveDT where
  year : Int
  month : Nat
  day : Nat
  hour : Nat
  minute : Nat
  second : Nat
deriving DecidableEq, Repr

/-- Days since 1970-01-01 of a civil date (Howard Hinnant's algorithm,
with Euclidean division, which on the non-negative intermediate values
coincides with the truncating division of the original). -/
def daysFromCivil (y : Int) (m d : Nat) : Int :=
  let yShift : Int := if m ≤ 2 then y - 1 else y
  let era := Int.ediv yShift 400
  let yoe := yShift - era * 400
  let mp : Int := Int.emod (Int.ofNat m + 9) 12
  let doy := Int.ediv (153 * mp + 2) 5 + Int.ofNat d - 1
  let doe := yoe * 365 + Int.ediv yoe 4 - Int.ediv yoe 100 + doy
  era * 146097 + doe - 719468

/-- Inverse of `daysFromCivil`: the civil date of a day number. -/
def civilFromDays (z0 : Int) : Int × Nat × Nat :=
  let z := z0 + 719468
  let era := Int.ediv z 146097
  let doe := z - era * 146097
  let yoe := Int.ediv (doe - Int.ediv doe 1460 + Int.ediv doe 36524 - Int.ediv doe 146096) 365
  let y := yoe + era * 400
  let doy := doe - (365 * yoe + Int.ediv yoe 4 - Int.ediv yoe 100)
  let mp := Int.ediv (5 * doy + 2) 153
  let d := (doy - Int.ediv (153 * mp + 2) 5 + 1).toNat
  let m := (if mp < 10 then mp + 3 else mp - 9).toNat
  (if m ≤ 2 then y + 1 else y, m, d)

/-- Seconds since the Unix epoch of a naive datetime read as UTC. -/
def toSecs (t : NaiveDT) : Int :=
  daysFromCivil t.year t.month t.day * 86400
    + Int.ofNat (t.hour * 3600 + t.minute * 60 + t.second)

/-- Naive datetime (read as UTC) of a count of seconds since the epoch. -/
def ofSecs (s : Int) : NaiveDT :=
  let day := Int.ediv s 86400
  let sod := (Int.emod s 86400).toNat
  let c := civilFromDays day
  ⟨c.1, c.2.1, c.2.2, sod / 3600, sod % 3600 / 60, sod % 60⟩

/-- Day of the week of a day number, `0` being Sunday. -/
def weekdayFromDays (z : Int) : Nat :=
  (Int.emod (z + 4) 7).toNat

/-- The first Sunday falling on or after the given day number. -/
def firstSundayOnOrAfter (z : Int) : Int :=
  z + Int.ofNat ((7 - weekdayFromDays z) % 7)

/-- Day number of the second Sunday of March of a year. -/
def secondSundayOfMarch (y : Int) : Int :=
  firstSundayOnOrAfter (daysFromCivil y 3 1) + 7

/-- Day number of the first Sunday of November of a year. -/
def firstSundayOfNovember (y : Int) : Int :=
  firstSundayOnOrAfter (daysFromCivil y 11 1)

/-- Whether a naive local `US/Eastern` wall-clock reading is daylight-saving
time under pytz's `localize` with the default `is_dst=False`: daylight time
runs from 03:00 on the second Sunday of March (the skipped hour 02:00-02:59
resolves to standard time) up to, exclusively, 01:00 on the first Sunday of
November (the repeated hour 01:00-01:59 also resolves to standard time). -/
def isEasternDST (t : NaiveDT) : Bool :=
  let s := toSecs t
  let startS := secondSundayOfMarch t.year * 86400 + 3 * 3600
  let stopS := firstSundayOfNovember t.year * 86400 + 1 * 3600
  decide (startS ≤ s ∧ s < stopS)

/-- The two timezones the plugin mentions: `pytz.utc` and
`pytz.timezone('US/Eastern')`. -/
inductive Tz where
  | utc
  | usEastern
deriving DecidableEq, Repr

/-- UTC offset, in seconds, attached to a naive wall-clock reading by
`tz.localize(date)` (pytz default `is_dst=False`). -/
def tzWallOffsetSecs : Tz → NaiveDT → Int
  | Tz.utc, _ => 0
  | Tz.usEastern, t => if isEasternDST t then -4 * 3600 else -5 * 3600

/-- Whether daylight time is in effect in `US/Eastern` at a UTC instant:
from 07:00 UTC of the second Sunday of March (02:00 EST) to 06:00 UTC of
the first Sunday of November (02:00 EDT). -/
def isEasternDSTInstant (s : Int) : Bool :=
  let y := (civilFromDays (Int.ediv s 86400)).1
  decide (secondSundayOfMarch y * 86400 + 7 * 3600 ≤ s ∧
    s < firstSundayOfNovember y * 86400 + 6 * 3600)

/-- UTC offset, in seconds, of a timezone at a UTC instant (used by
`astimezone`). -/
def tzInstantOffsetSecs : Tz → Int → Int
  | Tz.utc, _ => 0
  | Tz.usEastern, s => if isEasternDSTInstant s then -4 * 3600 else -5 * 3600

/-- `tzname()` of an aware datetime in a timezone at a UTC instant. -/
def tzAbbrevAt : Tz → Int → String
  | Tz.utc, _ => "UTC"
  | Tz.usEastern, s => if isEasternDSTInstant s then "EDT" else "EST"

/-- `convert_tz(date, from_tz, to_tz)`: `from_tz.localize(date)` followed by
`astimezone(to_tz)`; the wall-clock fields of the result. -/
def convert_tz (date : NaiveDT) (from_tz to_tz : Tz) : NaiveDT :=
  let instant := toSecs date - tzWallOffsetSecs from_tz date
  ofSecs (instant + tzInstantOffsetSecs to_tz instant)

/-- `tzname()` of the datetime returned by `convert_tz date from_tz to_tz`. -/
def convertedTzName (date : NaiveDT) (from_tz to_tz : Tz) : String :=
  tzAbbrevAt to_tz (toSecs date - tzWallOffsetSecs from_tz date)

/-- The codepoint ranges of the Unicode general category Nd (decimal
digits), Unicode 14 as shipped with CPython 3.11. -/
def ndRanges : List (Nat × Nat) :=
  [(48, 57), (1632, 1641), (1776, 1785), (1984, 1993), (2406, 2415),
   (2534, 2543), (2662, 2671), (2790, 2799), (2918, 2927), (3046, 3055),
   (3174, 3183), (3302, 3311), (3430, 3439), (3558, 3567), (3664, 3673),
   (3792, 3801), (3872, 3881), (4160, 4169), (4240, 4249), (6112, 6121),
   (6160, 6169), (6470, 6479), (6608, 6617), (6784, 6793), (6800, 6809),
   (6992, 7001), (7088, 7097), (7232, 7241), (7248, 7257), (42528, 42537),
   (43216, 43225), (43264, 43273), (43472, 43481), (43504, 43513),
   (43600, 43609), (44016, 44025), (65296, 65305), (66720, 66729),
   (68912, 68921), (69734, 69743), (69872, 69881), (69942, 69951),
   (70096, 70105), (70384, 70393), (70736, 70745), (70864, 70873),
   (71248, 71257), (71360, 71369), (71472, 71481), (71904, 71913),
   (72016, 72025), (72784, 72793), (73040, 73049), (73120, 73129),
   (92768, 92777), (92864, 92873), (93008, 93017), (120782, 120831),
   (123200, 123209), (123632, 123641), (125264, 125273), (130032, 130041)]

/-- Python's regex class `\d` on a `str` pattern: any Unicode decimal
digit (category Nd), not only the ASCII digits — for example U+FF17
FULLWIDTH DIGIT SEVEN matches `\d`. -/
def pyDigit (c : Char) : Bool :=
  ndRanges.any (fun r => decide (r.1 ≤ c.toNat ∧ c.toNat ≤ r.2))

/-- An ASCII digit.  CPython's `_strptime` builds its field regexes mostly
from explicit ASCII character classes (e.g. `%m` is `1[0-2]|0[1-9]|[1-9]`);
the parser model below uses ASCII digits throughout (for the few positions
where the `_strptime` regex is a bare `\d` this restricts the model to
ASCII inputs — it only shrinks the accepted set, never accepting a string
Python rejects). -/
def asciiDigit (c : Char) : Bool :=
  c.isDigit

/-- Python's regex class `\s`, restricted to the ASCII whitespace that
`strptime` can meet in practice. -/
def pySpace (c : Char) : Bool :=
  c = ' ' ∨ c = '\t' ∨ c = '\n' ∨ c = '\r' ∨ c = '\x0b' ∨ c = '\x0c'

/-- Numeric value of an ASCII digit. -/
def digitVal (c : Char) : Nat :=
  c.toNat - 48

/-- Parse exactly four digits (`strptime`'s `%Y` pattern, four `\d`;
modelled over ASCII digits). -/
def parse4Digits : List Char → Option (Nat × List Char)
  | a :: b :: c :: d :: rest =>
    if asciiDigit a ∧ asciiDigit b ∧ asciiDigit c ∧ asciiDigit d then
      some (digitVal a * 1000 + digitVal b * 100 + digitVal c * 10 + digitVal d, rest)
    else none
  | _ => none

/-- Parse a one- or two-digit field the way `strptime`'s alternation
patterns do (for example `%m` is the regex `1[0-2]|0[1-9]|[1-9]`): take two
digits when their value lies in `[lo2, hi2]`, otherwise one digit with value
in `[lo1, hi1]`. -/
def parseFlexNum (lo2 hi2 lo1 hi1 : Nat) : List Char → Option (Nat × List Char)
  | c1 :: c2 :: rest =>
    if asciiDigit c1 ∧ asciiDigit c2 ∧ lo2 ≤ digitVal c1 * 10 + digitVal c2 ∧
        digitVal c1 * 10 + digitVal c2 ≤ hi2 then
      some (digitVal c1 * 10 + digitVal c2, rest)
    else if asciiDigit c1 ∧ lo1 ≤ digitVal c1 ∧ digitVal c1 ≤ hi1 then
      some (digitVal c1, c2 :: rest)
    else none
  | [c1] =>
    if asciiDigit c1 ∧ lo1 ≤ digitVal c1 ∧ digitVal c1 ≤ hi1 then
      some (digitVal c1, [])
    else none
  | [] => none

/-- Expect a given literal character. -/
def expectChar (c : Char) : List Char → Option (List Char)
  | c' :: rest => if c' = c then some rest else none
  | [] => none

/-- Expect a non-empty run of whitespace: `strptime` turns a literal space
in the format into the regex `\s+`. -/
def expectSpaces : List Char → Option (List Char)
  | c :: rest => if pySpace c then some (rest.dropWhile pySpace) else none
  | [] => none

/-- Python leap-year rule (`calendar.isleap`). -/
def isLeapYear (y : Int) : Bool :=
  y % 4 = 0 ∧ (¬ y % 100 = 0 ∨ y % 400 = 0)

/-- Length of a month, used by the `datetime` constructor's validation. -/
def daysInMonth (y : Int) (m : Nat) : Nat :=
  if m = 2 then (if isLeapYear y then 29 else 28)
  else if m = 4 ∨ m = 6 ∨ m = 9 ∨ m = 11 then 30
  else 31

/-- `datetime.strptime(s, '%Y-%m-%d %H:%M:%S')`: `none` models the
`ValueError` Python raises when the string does not match the pattern (or
the matched fields do not form a valid datetime, e.g. February 30th or
second 60, which the `datetime` constructor rejects). -/
def strptimeYmdHMS (s : String) : Option NaiveDT := do
  let (y, r1) ← parse4Digits s.toList
  let r2 ← expectChar '-' r1
  let (mo, r3) ← parseFlexNum 1 12 1 9 r2
  let r4 ← expectChar '-' r3
  let (d, r5) ← parseFlexNum 1 31 1 9 r4
  let r6 ← expectSpaces r5
  let (h, r7) ← parseFlexNum 0 23 0 9 r6
  let r8 ← expectChar ':' r7
  let (mi, r9) ← parseFlexNum 0 59 0 9 r8
  let r10 ← expectChar ':' r9
  let (se, r11) ← parseFlexNum 0 59 0 9 r10
  if r11 = [] ∧ 1 ≤ y ∧ d ≤ daysInMonth (Int.ofNat y) mo then
    some ⟨Int.ofNat y, mo, d, h, mi, se⟩
  else none

/-- Two-digit zero-padded rendering of a field. -/
def pad2 (n : Nat) : String :=
  if n < 10 then "0" ++ toString n else toString n

/-- Four-digit zero-padded rendering of a year (`%Y` on CPython/Linux;
the years handled here are all positive). -/
def pad4 (n : Int) : String :=
  let a := n.toNat
  if a < 10 then "000" ++ toString a
  else if a < 100 then "00" ++ toString a
  else if a < 1000 then "0" ++ toString a
  else toString a

/-- `strftime('%Y-%m-%d %H:%M:%S')`. -/
def strftimeDashed (t : NaiveDT) : String :=
  pad4 t.year ++ "-" ++ pad2 t.month ++ "-" ++ pad2 t.day ++ " " ++
    pad2 t.hour ++ ":" ++ pad2 t.minute ++ ":" ++ pad2 t.second

/-- `strftime('%Y%m%d%H%M%S')`, the watermark format. -/
def strftimeCompact (t : NaiveDT) : String :=
  pad4 t.year ++ pad2 t.month ++ pad2 t.day ++
    pad2 t.hour ++ pad2 t.minute ++ pad2 t.second

/-- `set_last_run`: the string written to the `LAST_RUN` key when the
callback runs at instant `now` — `convert_tz(datetime.now(), bot_tz, utc)`
formatted with `%Y%m%d%H%M%S`, where `bot_tz` is hardcoded to `pytz.utc`. -/
def set_last_run (now : NaiveDT) : String :=
  strftimeCompact (convert_tz now Tz.utc Tz.utc)

/-- A ticket record as delivered inside the response's result list. -/
structure Issue where
  number : String
  short_description : String
  sys_created_by : String
  state : String
  sys_updated_on : String
deriving DecidableEq, Repr

/-- The exceptions the plugin's operations can let escape. -/
inductive SnFailure where
  /-- `ValueError` from `datetime.strptime` on a malformed timestamp. -/
  | valueError
  /-- Error raised by `response.json()['result']` when the body is not a
  JSON object holding a result list (modelled as a single failure point;
  Python may raise a step later for some shapes, with the same observable
  effect: no string is returned and the watermark is untouched). -/
  | jsonShape
  /-- Exception raised by `requests.get` itself (network failure). -/
  | transport
  /-- `KeyError`/`TypeError` raised when an element of a non-list sized
  `result` value is reached: `data['result'][0]` on a JSON object raises
  `KeyError` (its keys are strings, never the integer 0), and
  `issue_details` applied to a string key or character raises `TypeError`
  at `issue['number']`.  The model does not distinguish the two classes. -/
  | typeError
deriving DecidableEq, Repr

/-- Body of an HTTP response, as far as the plugin looks at it. -/
inductive JsonBody where
  /-- A JSON object whose `result` key holds a list of ticket records. -/
  | resultList (result : List Issue)
  /-- A JSON object whose `result` key holds a sized value that is not a
  list: a JSON object (`len` counts its keys and iteration yields the keys,
  which are strings) or a string (`len` counts its characters and iteration
  yields them), of the given length. -/
  | resultNonList (size : Nat)
  /-- Anything on which evaluating `response.json()['result']` or taking
  `len` of it raises: a body that is not JSON, is not a JSON object, has no
  `result` key, or holds an unsized `result` value (number, boolean,
  null). -/
  | malformed
deriving DecidableEq, Repr

/-- An HTTP response: `status_code` plus the parsed body. -/
structure HttpResponse where
  status_code : Nat
  body : JsonBody
deriving DecidableEq, Repr

/-- The configuration keys the plugin reads when issuing requests. -/
structure SnowConfig where
  url : String
  user : String
  pwd : String
deriving DecidableEq, Repr

/-- `issue_details(issue)`: the formatted detail line, or the strptime
`ValueError` escaping (the plugin does not catch it). -/
def issue_details (issue : Issue) : Except SnFailure String :=
  let short_url := "https://url.corp.redhat.com/" ++ issue.number
  match strptimeYmdHMS issue.sys_updated_on with
  | none => Except.error SnFailure.valueError
  | some sys_updated_on =>
    let utc_sys_updated_on := convert_tz sys_updated_on Tz.usEastern Tz.utc
    Except.ok (String.intercalate " | "
      [short_url,
       issue.short_description,
       issue.sys_created_by,
       issue.state,
       strftimeDashed utc_sys_updated_on ++ " " ++
         convertedTzName sys_updated_on Tz.usEastern Tz.utc])

/-- The compiled pattern `^INC\d{7}$` as a character list. -/
def incPat : List Char :=
  "INC".toList

/-- The compiled pattern `^TASK\d{7}$` as a character list. -/
def taskPat : List Char :=
  "TASK".toList

/-- Python's `$` anchor: it matches at the end of the string, and also just
before a newline that ends the string. -/
def pyDollarEnd : List Char → Bool
  | [] => true
  | [c] => c = '\n'
  | _ => false

/-- `re.match` of a pattern of the shape `^tag\d{7}$` against a string:
the string starts with `tag`, followed by exactly seven digits, followed by
the `$` anchor. -/
def reFullMatchTicket (tag : List Char) (s : String) : Bool :=
  let cs := s.toList
  let rest := cs.drop tag.length
  decide (cs.take tag.length = tag) && decide ((rest.take 7).length = 7) &&
    (rest.take 7).all pyDigit && pyDollarEnd (rest.drop 7)

/-- Whether the `sn` command accepts its argument (one of the two regexes
matches). -/
def snAccepts (number : String) : Bool :=
  reFullMatchTicket incPat number || reFullMatchTicket taskPat number

/-- The table the `sn` command selects for its argument, `none` when both
regexes reject. -/
def snTable (number : String) : Option String :=
  if reFullMatchTicket incPat number then some "incident"
  else if reFullMatchTicket taskPat number then some "sc_task"
  else none

/-- The URL the `sn` command requests. -/
def snUrl (cfg : SnowConfig) (table number : String) : String :=
  cfg.url ++ table ++ "?sysparm_display_value=true&number=" ++ number

/-- The `sn` bot command.  `http` maps the requested URL to what the single
`requests.get` call yields (`Except.error` models `requests.get` itself
raising).  Returns the list of URLs requested together with the command's
outcome: `Except.ok` for a returned string, `Except.error` for an exception
escaping to the caller. -/
def sn (cfg : SnowConfig) (args : String)
    (http : String → Except Unit HttpResponse) :
    List String × Except SnFailure String :=
  let number := args
  match snTable number with
  | none => ([], Except.ok "Invalid issue number")
  | some table =>
    let url := snUrl cfg table number
    match http url with
    | Except.error _ => ([url], Except.error SnFailure.transport)
    | Except.ok response =>
      if response.status_code ≠ 200 then
        ([url], Except.ok ("Could not get information about " ++ number ++
          " from ServiceNow"))
      else
        match response.body with
        | JsonBody.malformed => ([url], Except.error SnFailure.jsonShape)
        | JsonBody.resultNonList n =>
          if n = 1 then ([url], Except.error SnFailure.typeError)
          else ([url], Except.ok (number ++ " was not found"))
        | JsonBody.resultList rs =>
          match rs with
          | [issue] => ([url], issue_details issue)
          | _ => ([url], Except.ok (number ++ " was not found"))

/-- The query request `new_issues` issues against the `incident` table for
a given watermark string. -/
structure SnRequest where
  table : String
  sysparm_display_value : String
  assignment_group : String
  sysparm_query : String
deriving DecidableEq, Repr

/-- The poll request built from the current `LAST_RUN` watermark. -/
def pollRequest (last_run : String) : SnRequest :=
  { table := "incident",
    sysparm_display_value := "true",
    assignment_group := "Information Security",
    sysparm_query := "sys_updated_on>" ++ last_run ++ "^assigned_toISEMPTY" }

/-- External collaborators of one poll cycle: the subscribed rooms (read at
send time) and the HTTP client. -/
structure PollEnv where
  rooms : List String
  http : SnRequest → Except Unit HttpResponse

/-- Observable outcome of one poll cycle: the stored `LAST_RUN` value after
the cycle, the `(room, message)` sends in order, the requests issued, and
the exception escaping the callback, if any. -/
structure PollResult where
  lastRunStore : Option String
  sent : List (String × String)
  requests : List SnRequest
  raised : Option SnFailure
deriving DecidableEq, Repr

/-- The notification loop of `new_issues`: format each ticket and send it
to every room; a strptime `ValueError` aborts the loop, keeping the sends
already made. -/
def notifyIssues (rooms : List String) :
    List Issue → List (String × String) × Option SnFailure
  | [] => ([], none)
  | issue :: rest =>
    match issue_details issue with
    | Except.error e => ([], some e)
    | Except.ok details =>
      let out := notifyIssues rooms rest
      (rooms.map (fun room => (room, "Incoming: " ++ details)) ++ out.1, out.2)

/-- One run of the `new_issues` callback.  `stored` is the `LAST_RUN` value
before the cycle (`none` on the very first run); `tStart` is the clock
reading at the start of the cycle (used when seeding the absent watermark)
and `tEnd` the reading at the final `set_last_run`. -/
def new_issues (env : PollEnv) (stored : Option String) (tStart tEnd : NaiveDT) :
    PollResult :=
  let last_run := match stored with
    | some w => w
    | none => set_last_run tStart
  let req := pollRequest last_run
  match env.http req with
  | Except.error _ =>
    { lastRunStore := some last_run, sent := [], requests := [req],
      raised := some SnFailure.transport }
  | Except.ok response =>
    if response.status_code ≠ 200 then
      { lastRunStore := some last_run, sent := [], requests := [req],
        raised := none }
    else
      match response.body with
      | JsonBody.malformed =>
        { lastRunStore := some last_run, sent := [], requests := [req],
          raised := some SnFailure.jsonShape }
      | JsonBody.resultNonList n =>
        if n = 0 then
          { lastRunStore := some (set_last_run tEnd), sent := [],
            requests := [req], raised := none }
        else
          { lastRunStore := some last_run, sent := [], requests := [req],
            raised := some SnFailure.typeError }
      | JsonBody.resultList results =>
        let out := notifyIssues env.rooms results
        match out.2 with
        | some e =>
          { lastRunStore := some last_run, sent := out.1, requests := [req],
            raised := some e }
        | none =>
          { lastRunStore := some (set_last_run tEnd), sent := out.1,
            requests := [req], raised := none }

/-- Spec-side reading of the claim's pattern language: the whole string is
the tag followed by exactly seven digits, with no leading or trailing
characters. -/
def strictTicketMatch (tag : List Char) (s : String) : Prop :=
  ∃ ds, s.toList = tag ++ ds ∧ ds.length = 7 ∧ ∀ c ∈ ds, pyDigit c = true

/-- Spec-side reading of the pattern as Python actually matches it: the tag,
exactly seven digits, then either nothing or one trailing newline (the
Python `$` anchor). -/
def pyTicketMatch (tag : List Char) (s : String) : Prop :=
  ∃ ds tl, s.toList = tag ++ (ds ++ tl) ∧ ds.length = 7 ∧
    (∀ c ∈ ds, pyDigit c = true) ∧ (tl = [] ∨ tl = ['\n'])

/-- Concrete configuration used by the closed instances below. -/
def cfg0 : SnowConfig :=
  ⟨"https://sn.example/api/", "user", "pwd"⟩

/-- A well-formed ticket record. -/
def issue0 : Issue :=
  ⟨"INC1234567", "Printer on fire", "alice", "New", "2023-06-15 14:30:00"⟩

/-- A ticket record whose timestamp does not match the pattern. -/
def issueBadTs : Issue :=
  ⟨"INC1234567", "Printer on fire", "alice", "New", "junk"⟩

/-- A clock reading strictly before the sample cycle below. -/
def dtJan : NaiveDT :=
  ⟨2023, 1, 1, 0, 0, 0⟩

/-- Cycle invocation instant of the sample cycle. -/
def dtStart : NaiveDT :=
  ⟨2023, 6, 15, 14, 0, 0⟩

/-- Cycle-end instant of the sample cycle. -/
def dtEnd : NaiveDT :=
  ⟨2023, 6, 15, 14, 0, 5⟩

/-- Environment whose ticket query returns one well-formed ticket. -/
def envOne : PollEnv :=
  ⟨["room1"], fun _ => Except.ok ⟨200, JsonBody.resultList [issue0]⟩⟩

/-- Environment whose ticket query fails with status 500. -/
def env500 : PollEnv :=
  ⟨["room1"], fun _ => Except.ok ⟨500, JsonBody.resultList []⟩⟩

/-- Environment whose ticket query returns success and an empty result. -/
def envEmpty : PollEnv :=
  ⟨["room1"], fun _ => Except.ok ⟨200, JsonBody.resultList []⟩⟩

/-- Environment whose ticket query returns success but a body without a
result list. -/
def envBadBody : PollEnv :=
  ⟨["room1"], fun _ => Except.ok ⟨200, JsonBody.malformed⟩⟩

/-- Environment whose ticket query returns success and one ticket whose
timestamp does not parse. -/
def envBadTs : PollEnv :=
  ⟨["room1"], fun _ => Except.ok ⟨200, JsonBody.resultList [issueBadTs]⟩⟩

/-- Environment whose ticket query returns success and a `result` key
holding an empty JSON object (a sized non-list value of length 0). -/
def envNoList0 : PollEnv :=
  ⟨["room1"], fun _ => Except.ok ⟨200, JsonBody.resultNonList 0⟩⟩

theorem reFullMatchTicket_iff (tag : List Char) (s : String) :
    reFullMatchTicket tag s = true ↔ pyTicketMatch tag s := by
  unfold reFullMatchTicket pyTicketMatch
  simp only [Bool.and_eq_true, decide_eq_true_eq, List.all_eq_true]
  constructor
  · rintro ⟨⟨⟨h1, h2⟩, h3⟩, h4⟩
    refine ⟨(s.toList.drop tag.length).take 7, (s.toList.drop tag.length).drop 7,
      ?_, h2, h3, ?_⟩
    · conv_lhs => rw [← List.take_append_drop tag.length s.toList]
      rw [h1, List.take_append_drop]
    · revert h4
      cases hrest : (s.toList.drop tag.length).drop 7 with
      | nil => intro _; exact Or.inl rfl
      | cons a l =>
        cases l with
        | nil =>
          intro h
          simp only [pyDollarEnd, decide_eq_true_eq] at h
          exact Or.inr (by rw [h])
        | cons b l' => intro h; simp [pyDollarEnd] at h
  · rintro ⟨ds, tl, hs, hlen, hdig, htl⟩
    rw [hs]
    have htake : (tag ++ (ds ++ tl)).take tag.length = tag := List.take_left tag (ds ++ tl)
    have hdrop : (tag ++ (ds ++ tl)).drop tag.length = ds ++ tl := List.drop_left tag (ds ++ tl)
    rw [htake, hdrop, List.take_left' hlen, List.drop_left' hlen]
    refine ⟨⟨⟨rfl, hlen⟩, hdig⟩, ?_⟩
    rcases htl with h | h <;> rw [h] <;> rfl

theorem snAccepts_iff_pyMatch (s : String) :
    snAccepts s = true ↔ pyTicketMatch incPat s ∨ pyTicketMatch taskPat s := by
  unfold snAccepts
  rw [Bool.or_eq_true, reFullMatchTicket_iff, reFullMatchTicket_iff]

theorem sn_rejected (cfg : SnowConfig) (s : String)
    (http : String → Except Unit HttpResponse) (h : snAccepts s = false) :
    sn cfg s http = ([], Except.ok "Invalid issue number") := by
  unfold snAccepts at h
  rw [Bool.or_eq_false_iff] at h
  simp [sn, snTable, h.1, h.2]

/-- C1 (amended): on the first-ever poll cycle (no watermark stored under
LAST_RUN), `new_issues` seeds the watermark to the cycle's start instant
converted to UTC and then proceeds with the cycle: it issues exactly one
ticket query, whose filter uses the freshly seeded watermark, sends one
notification per returned ticket per room, and on a fully successful cycle
advances the watermark again to the cycle-end instant. -/
theorem C1_first_run_seeds_then_queries (env : PollEnv) (tStart tEnd : NaiveDT)
    (rs : List Issue) (msgs : List (String × String))
    (hhttp : env.http (pollRequest (set_last_run tStart)) =
      Except.ok ⟨200, JsonBody.resultList rs⟩)
    (hnotify : notifyIssues env.rooms rs = (msgs, none)) :
    new_issues env none tStart tEnd =
      { lastRunStore := some (set_last_run tEnd), sent := msgs,
        requests := [pollRequest (set_last_run tStart)], raised := none } := by
  simp only [new_issues]
  rw [hhttp]
  simp [hnotify]

/-- C1 witness: a concrete first-run cycle with a successful empty query. -/
theorem C1_first_run_seeds_then_queries_witness :
    new_issues envEmpty none dtStart dtEnd =
      { lastRunStore := some (set_last_run dtEnd), sent := [],
        requests := [pollRequest (set_last_run dtStart)], raised := none } :=
  C1_first_run_seeds_then_queries envEmpty dtStart dtEnd [] [] rfl rfl

/-- C1 counterexample: on the very first cycle the code does issue the HTTP
query (one request is made) and, when the server returns a ticket, does
send a notification — refuting the claim's "zero messages are sent and no
HTTP request is made". -/
theorem C1_counterexample :
    (new_issues envOne none dtStart dtEnd).requests.length = 1 ∧
    (new_issues envOne none dtStart dtEnd).sent ≠ [] := by
  decide

/-- C2 (amended): in every poll cycle that starts with a stored watermark,
a non-success HTTP status aborts the cycle without touching the watermark
and without sending any message. -/
theorem C2_failure_keeps_watermark (env : PollEnv) (w : String)
    (tStart tEnd : NaiveDT) (resp : HttpResponse)
    (hhttp : env.http (pollRequest w) = Except.ok resp)
    (hstatus : resp.status_code ≠ 200) :
    new_issues env (some w) tStart tEnd =
      { lastRunStore := some w, sent := [], requests := [pollRequest w],
        raised := none } := by
  simp only [new_issues]
  rw [hhttp]
  simp [hstatus]

/-- C2 witness: a concrete failing cycle over a stored watermark. -/
theorem C2_failure_keeps_watermark_witness :
    new_issues env500 (some "20230101000000") dtStart dtEnd =
      { lastRunStore := some "20230101000000", sent := [],
        requests := [pollRequest "20230101000000"], raised := none } :=
  C2_failure_keeps_watermark env500 "20230101000000" dtStart dtEnd
    ⟨500, JsonBody.resultList []⟩ rfl (by decide)

/-- C2 counterexample: on a first-run cycle whose HTTP query fails, the
watermark after the cycle is the freshly seeded value, not the (absent)
watermark from before the cycle — refuting the claim's unconditional
"watermark after equals watermark before". -/
theorem C2_counterexample :
    (new_issues env500 none dtStart dtEnd).lastRunStore = some (set_last_run dtStart) ∧
    (new_issues env500 none dtStart dtEnd).lastRunStore ≠ none := by
  decide

/-- C3 (amended): every poll cycle whose HTTP query succeeds, whose body is
well-formed, and whose tickets all format cleanly advances the watermark to
the cycle-end instant; with a monotone clock that instant is at or after
both the pre-cycle watermark's instant and the cycle's invocation instant,
so across such cycles the stored watermark never decreases. -/
theorem C3_success_advances_watermark (env : PollEnv) (tPrev tStart tEnd : NaiveDT)
    (rs : List Issue) (msgs : List (String × String))
    (hhttp : env.http (pollRequest (set_last_run tPrev)) =
      Except.ok ⟨200, JsonBody.resultList rs⟩)
    (hnotify : notifyIssues env.rooms rs = (msgs, none))
    (hclock1 : toSecs tPrev ≤ toSecs tStart)
    (hclock2 : toSecs tStart ≤ toSecs tEnd) :
    (new_issues env (some (set_last_run tPrev)) tStart tEnd).lastRunStore =
      some (set_last_run tEnd) ∧
    toSecs tPrev ≤ toSecs tEnd ∧ toSecs tStart ≤ toSecs tEnd := by
  refine ⟨?_, le_trans hclock1 hclock2, hclock2⟩
  simp only [new_issues]
  rw [hhttp]
  simp [hnotify]

/-- C3 witness: a concrete successful empty cycle over a stored watermark
written at an earlier instant. -/
theorem C3_success_advances_watermark_witness :
    (new_issues envEmpty (some (set_last_run dtJan)) dtStart dtEnd).lastRunStore =
      some (set_last_run dtEnd) ∧
    toSecs dtJan ≤ toSecs dtEnd ∧ toSecs dtStart ≤ toSecs dtEnd :=
  C3_success_advances_watermark envEmpty dtJan dtStart dtEnd [] [] rfl rfl
    (by decide) (by decide)

/-- C3 counterexample: a cycle whose HTTP query succeeds (status 200) but
whose body has no result list leaves the watermark at its old value, an
instant strictly before the cycle's invocation time — refuting the claim's
"the post-cycle watermark equals a UTC instant at or after the cycle's
invocation time" for cycles distinguished only by HTTP success. -/
theorem C3_counterexample :
    envBadBody.http (pollRequest (set_last_run dtJan)) =
      Except.ok ⟨200, JsonBody.malformed⟩ ∧
    (new_issues envBadBody (some (set_last_run dtJan)) dtStart dtEnd).lastRunStore =
      some (set_last_run dtJan) ∧
    toSecs dtJan < toSecs dtStart := by
  refine ⟨rfl, by decide, by decide⟩

/-- C4 (amended): `sn` accepts its input exactly when it is `INC` followed
by seven digits or `TASK` followed by seven digits — case-sensitively,
anchored at both ends, except that a single trailing newline is also
accepted (Python's `$` matches before a final newline); every rejected
input gets the fixed string "Invalid issue number" and causes no HTTP
request. -/
theorem C4_sn_input_validation (s : String) (cfg : SnowConfig)
    (http : String → Except Unit HttpResponse) :
    (snAccepts s = true ↔ pyTicketMatch incPat s ∨ pyTicketMatch taskPat s) ∧
    (snAccepts s = false → sn cfg s http = ([], Except.ok "Invalid issue number")) :=
  ⟨snAccepts_iff_pyMatch s, sn_rejected cfg s http⟩

/-- C4 witness: a rejected input returns the fixed error string with no
request, and the acceptance characterization holds at a concrete input. -/
theorem C4_sn_input_validation_witness :
    sn cfg0 "XYZ1234567" (fun _ => Except.ok ⟨200, JsonBody.resultList []⟩) =
      ([], Except.ok "Invalid issue number") ∧
    (snAccepts "INC1234567" = true ↔
      pyTicketMatch incPat "INC1234567" ∨ pyTicketMatch taskPat "INC1234567") :=
  ⟨(C4_sn_input_validation "XYZ1234567" cfg0
      (fun _ => Except.ok ⟨200, JsonBody.resultList []⟩)).2 (by decide),
   (C4_sn_input_validation "INC1234567" cfg0
      (fun _ => Except.ok ⟨200, JsonBody.resultList []⟩)).1⟩

/-- C4 counterexample: the input `"INC1234567\n"` has a trailing character
and therefore matches neither full-string pattern of the claim, yet the
code accepts it and issues an HTTP request — refuting the claim's
"full-string match with no leading or trailing characters". -/
theorem C4_counterexample :
    snAccepts "INC1234567\n" = true ∧
    ¬ (strictTicketMatch incPat "INC1234567\n" ∨
       strictTicketMatch taskPat "INC1234567\n") ∧
    (sn cfg0 "INC1234567\n" (fun _ => Except.ok ⟨500, JsonBody.malformed⟩)).1 ≠ [] := by
  refine ⟨by decide, ?_, by decide⟩
  have hlist : "INC1234567\n".toList =
      ['I', 'N', 'C', '1', '2', '3', '4', '5', '6', '7', '\n'] := rfl
  rintro (⟨ds, hs, hlen, _⟩ | ⟨ds, hs, hlen, _⟩)
  · have hl := congrArg List.length hs
    rw [hlist] at hl
    simp [incPat, hlen] at hl
  · rw [hlist] at hs
    simp only [taskPat] at hs
    have hh := congrArg (fun l => l.headI) hs
    simp at hh

/-- C5: for a valid ticket number whose query returns success with a
well-formed body, exactly one result yields the formatted detail line
(whatever `issue_details` produces for it) and any other result count
yields the string "<number> was not found". -/
theorem C5_lookup_result_dispatch (cfg : SnowConfig) (s table : String)
    (http : String → Except Unit HttpResponse) (rs : List Issue)
    (htable : snTable s = some table)
    (hhttp : http (snUrl cfg table s) = Except.ok ⟨200, JsonBody.resultList rs⟩) :
    (∀ issue, rs = [issue] → (sn cfg s http).2 = issue_details issue) ∧
    (rs.length ≠ 1 → (sn cfg s http).2 = Except.ok (s ++ " was not found")) := by
  constructor
  · rintro issue rfl
    simp only [sn, htable]
    rw [hhttp]
    simp
  · intro hlen
    simp only [sn, htable]
    rw [hhttp]
    cases rs with
    | nil => simp
    | cons a t =>
      cases t with
      | nil => exact absurd rfl hlen
      | cons b t' => simp

/-- C5 witness: a concrete lookup over an empty result list ends in
"was not found". -/
theorem C5_lookup_result_dispatch_witness :
    (sn cfg0 "INC1234567" (fun _ => Except.ok ⟨200, JsonBody.resultList []⟩)).2 =
      Except.ok ("INC1234567" ++ " was not found") :=
  (C5_lookup_result_dispatch cfg0 "INC1234567" "incident"
    (fun _ => Except.ok ⟨200, JsonBody.resultList []⟩) [] (by decide) rfl).2
    (by decide)

/-- C6: for a valid ticket number, a response with a non-success status
makes `sn` return the user-facing error string naming the number; no
exception escapes on that path. -/
theorem C6_lookup_http_error_string (cfg : SnowConfig) (s table : String)
    (http : String → Except Unit HttpResponse) (resp : HttpResponse)
    (htable : snTable s = some table)
    (hhttp : http (snUrl cfg table s) = Except.ok resp)
    (hstatus : resp.status_code ≠ 200) :
    sn cfg s http = ([snUrl cfg table s],
      Except.ok ("Could not get information about " ++ s ++ " from ServiceNow")) := by
  simp only [sn, htable]
  rw [hhttp]
  simp [hstatus]

/-- C6 witness: a concrete lookup against a 500 response. -/
theorem C6_lookup_http_error_string_witness :
    sn cfg0 "INC1234567" (fun _ => Except.ok ⟨500, JsonBody.resultList []⟩) =
      ([snUrl cfg0 "incident" "INC1234567"],
       Except.ok ("Could not get information about " ++ "INC1234567" ++
         " from ServiceNow")) :=
  C6_lookup_http_error_string cfg0 "INC1234567" "incident"
    (fun _ => Except.ok ⟨500, JsonBody.resultList []⟩)
    ⟨500, JsonBody.resultList []⟩ (by decide) rfl (by decide)

/-- C7: for a ticket whose timestamp parses, `issue_details` is the
pipe-separated concatenation of the fixed-prefix URL plus the ticket
number, the short description, the creator and the state unmodified, and
the last-updated instant reinterpreted from US/Eastern into UTC rendered
as `YYYY-MM-DD HH:MM:SS` plus the UTC zone abbreviation. -/
theorem C7_issue_details_format (issue : Issue) (t : NaiveDT)
    (hparse : strptimeYmdHMS issue.sys_updated_on = some t) :
    issue_details issue = Except.ok
      ("https://url.corp.redhat.com/" ++ issue.number ++ " | " ++
        issue.short_description ++ " | " ++ issue.sys_created_by ++ " | " ++
        issue.state ++ " | " ++
        (strftimeDashed (convert_tz t Tz.usEastern Tz.utc) ++ " UTC")) := by
  have hstep : issue_details issue = Except.ok (String.intercalate " | "
      ["https://url.corp.redhat.com/" ++ issue.number,
       issue.short_description,
       issue.sys_created_by,
       issue.state,
       strftimeDashed (convert_tz t Tz.usEastern Tz.utc) ++ " " ++
         convertedTzName t Tz.usEastern Tz.utc]) := by
    unfold issue_details
    rw [hparse]
  rw [hstep]
  have hname : convertedTzName t Tz.usEastern Tz.utc = "UTC" := rfl
  rw [hname]
  have h5 : ∀ a b c d e : String, String.intercalate " | " [a, b, c, d, e] =
      a ++ " | " ++ b ++ " | " ++ c ++ " | " ++ d ++ " | " ++ e :=
    fun _ _ _ _ _ => rfl
  rw [h5, String.append_assoc (strftimeDashed (convert_tz t Tz.usEastern Tz.utc)) " " "UTC"]
  rfl

/-- C7 witness: the concrete well-formed ticket record. -/
theorem C7_issue_details_format_witness :
    issue_details issue0 = Except.ok
      ("https://url.corp.redhat.com/" ++ issue0.number ++ " | " ++
        issue0.short_description ++ " | " ++ issue0.sys_created_by ++ " | " ++
        issue0.state ++ " | " ++
        (strftimeDashed (convert_tz ⟨2023, 6, 15, 14, 30, 0⟩ Tz.usEastern Tz.utc) ++
          " UTC")) :=
  C7_issue_details_format issue0 ⟨2023, 6, 15, 14, 30, 0⟩ (by decide)

/-- C8: a ticket whose `sys_updated_on` does not match the pattern makes
the formatter fail with the parse error, which is not caught locally: the
lookup's outcome is the exception (no user-facing string is returned) and
the poll cycle aborts with it, leaving the stored watermark untouched. -/
theorem C8_parse_error_propagates (issue : Issue) (cfg : SnowConfig)
    (s table w : String) (http : String → Except Unit HttpResponse)
    (env : PollEnv) (tStart tEnd : NaiveDT)
    (hbad : strptimeYmdHMS issue.sys_updated_on = none)
    (htable : snTable s = some table)
    (hhttp : http (snUrl cfg table s) = Except.ok ⟨200, JsonBody.resultList [issue]⟩)
    (hpoll : env.http (pollRequest w) = Except.ok ⟨200, JsonBody.resultList [issue]⟩) :
    issue_details issue = Except.error SnFailure.valueError ∧
    (sn cfg s http).2 = Except.error SnFailure.valueError ∧
    new_issues env (some w) tStart tEnd =
      { lastRunStore := some w, sent := [], requests := [pollRequest w],
        raised := some SnFailure.valueError } := by
  have hdet : issue_details issue = Except.error SnFailure.valueError := by
    unfold issue_details
    rw [hbad]
  refine ⟨hdet, ?_, ?_⟩
  · simp only [sn, htable]
    rw [hhttp]
    simp [hdet]
  · simp only [new_issues]
    rw [hpoll]
    simp [notifyIssues, hdet]

/-- C8 witness: a concrete malformed-timestamp ticket in both paths. -/
theorem C8_parse_error_propagates_witness :
    issue_details issueBadTs = Except.error SnFailure.valueError ∧
    (sn cfg0 "INC1234567"
      (fun _ => Except.ok ⟨200, JsonBody.resultList [issueBadTs]⟩)).2 =
      Except.error SnFailure.valueError ∧
    new_issues envBadTs (some "20230101000000") dtStart dtEnd =
      { lastRunStore := some "20230101000000", sent := [],
        requests := [pollRequest "20230101000000"],
        raised := some SnFailure.valueError } :=
  C8_parse_error_propagates issueBadTs cfg0 "INC1234567" "incident"
    "20230101000000"
    (fun _ => Except.ok ⟨200, JsonBody.resultList [issueBadTs]⟩) envBadTs
    dtStart dtEnd (by decide) (by decide) rfl rfl

/-- C9: the timestamp string "2023-06-15 14:30:00", parsed, localized to
US/Eastern and converted to UTC by `convert_tz`, renders back as
"2023-06-15 18:30:00" — shifted by the UTC−4 offset of daylight-saving
time at that date — with the UTC zone name. -/
theorem C9_round_trip_conversion :
    strptimeYmdHMS "2023-06-15 14:30:00" = some ⟨2023, 6, 15, 14, 30, 0⟩ ∧
    strftimeDashed (convert_tz ⟨2023, 6, 15, 14, 30, 0⟩ Tz.usEastern Tz.utc) =
      "2023-06-15 18:30:00" ∧
    convertedTzName ⟨2023, 6, 15, 14, 30, 0⟩ Tz.usEastern Tz.utc = "UTC" := by
  refine ⟨by decide, by decide, rfl⟩

/-- C10 (amended): a success-status response whose body makes
`response.json()['result']` — or `len` of it — raise fails both operations
with an uncaught exception: no user-facing string, and on the poll path no
watermark advance.  A `result` key holding a sized non-list value (a JSON
object or a string) does not raise there: the lookup raises only when its
length is exactly 1 and otherwise returns the "was not found" string,
while the poll cycle raises before any send at nonzero length (watermark
kept) and advances the watermark normally at length zero. -/
theorem C10_result_shape_dispatch (cfg : SnowConfig) (s table w : String)
    (http : String → Except Unit HttpResponse) (env : PollEnv)
    (tStart tEnd : NaiveDT) (n : Nat) :
    (snTable s = some table →
      http (snUrl cfg table s) = Except.ok ⟨200, JsonBody.malformed⟩ →
      (sn cfg s http).2 = Except.error SnFailure.jsonShape) ∧
    (env.http (pollRequest w) = Except.ok ⟨200, JsonBody.malformed⟩ →
      new_issues env (some w) tStart tEnd =
        { lastRunStore := some w, sent := [], requests := [pollRequest w],
          raised := some SnFailure.jsonShape }) ∧
    (snTable s = some table →
      http (snUrl cfg table s) = Except.ok ⟨200, JsonBody.resultNonList n⟩ →
      (sn cfg s http).2 = if n = 1 then Except.error SnFailure.typeError
        else Except.ok (s ++ " was not found")) ∧
    (env.http (pollRequest w) = Except.ok ⟨200, JsonBody.resultNonList n⟩ →
      new_issues env (some w) tStart tEnd =
        if n = 0 then
          { lastRunStore := some (set_last_run tEnd), sent := [],
            requests := [pollRequest w], raised := none }
        else
          { lastRunStore := some w, sent := [], requests := [pollRequest w],
            raised := some SnFailure.typeError }) := by
  refine ⟨?_, ?_, ?_, ?_⟩
  · intro htable hhttp
    simp only [sn, htable]
    rw [hhttp]
    simp
  · intro hpoll
    simp only [new_issues]
    rw [hpoll]
    simp
  · intro htable hhttp
    simp only [sn, htable]
    rw [hhttp]
    by_cases hn : n = 1 <;> simp [hn]
  · intro hpoll
    simp only [new_issues]
    rw [hpoll]
    by_cases hn : n = 0 <;> simp [hn]

/-- C10 witness: concrete raising shapes in both paths, and the raising
length-1 non-list shape in the lookup. -/
theorem C10_result_shape_dispatch_witness :
    (sn cfg0 "INC1234567" (fun _ => Except.ok ⟨200, JsonBody.malformed⟩)).2 =
      Except.error SnFailure.jsonShape ∧
    new_issues envBadBody (some "20230101000000") dtStart dtEnd =
      { lastRunStore := some "20230101000000", sent := [],
        requests := [pollRequest "20230101000000"],
        raised := some SnFailure.jsonShape } ∧
    (sn cfg0 "TASK7654321"
      (fun _ => Except.ok ⟨200, JsonBody.resultNonList 1⟩)).2 =
      Except.error SnFailure.typeError :=
  ⟨(C10_result_shape_dispatch cfg0 "INC1234567" "incident" "20230101000000"
      (fun _ => Except.ok ⟨200, JsonBody.malformed⟩) envBadBody dtStart dtEnd 0).1
      (by decide) rfl,
   (C10_result_shape_dispatch cfg0 "INC1234567" "incident" "20230101000000"
      (fun _ => Except.ok ⟨200, JsonBody.malformed⟩) envBadBody dtStart dtEnd 0).2.1
      rfl,
   (C10_result_shape_dispatch cfg0 "TASK7654321" "sc_task" "20230101000000"
      (fun _ => Except.ok ⟨200, JsonBody.resultNonList 1⟩) envBadBody dtStart dtEnd
      1).2.2.1 (by decide) rfl⟩

/-- C10 counterexample: a success-status body whose `result` holds an
empty JSON object — not a list — yet nothing raises: the lookup returns
the user-facing "was not found" string and the poll cycle iterates zero
keys and advances the watermark, refuting the claim's "raise, no string,
no watermark advance" for every non-list `result` body. -/
theorem C10_counterexample :
    (sn cfg0 "INC1234567" (fun _ => Except.ok ⟨200, JsonBody.resultNonList 0⟩)).2 =
      Except.ok ("INC1234567" ++ " was not found") ∧
    new_issues envNoList0 (some (set_last_run dtJan)) dtStart dtEnd =
      { lastRunStore := some (set_last_run dtEnd), sent := [],
        requests := [pollRequest (set_last_run dtJan)], raised := none } := by
  exact ⟨rfl, by decide⟩
